import Mathlib

/-!
# Verification of the GP orchestrator (`GPy/core/gp.py`)

A shallow embedding of the `GP` model class of `src/GPy/core/gp.py` and
proofs about it.  Numbers are modelled as rationals (`ℚ`).  The embedding
has two layers:

* a construction-time layer (`GP_init`, `GPModel`) where inputs are untyped
  numpy-like arrays, so that the shape assertions of `GP.__init__` are
  observable, and
* a prediction-time layer (`GPState`, `raw_predict_full`, `raw_predict_diag`,
  `predict_diag`, ...) where data is held in sized matrices
  (`Matrix (Fin n) (Fin m) ℚ`) and the kernel / likelihood / inference
  collaborators are records of functions, mirroring their interfaces.

Python's `_raw_predict(Xnew, full_cov)` returns matrices of different shapes
depending on `full_cov`; the embedding splits it into `raw_predict_full`
(the `full_cov=True` branch) and `raw_predict_diag` (the `full_cov=False`
branch), each faithful to its branch of the source.

Python runtime errors are modelled with `Except PyError`: an `assert`
failure is `PyError.assertionError`, reading a never-assigned attribute is
`PyError.attributeError`.  The error type also carries the error classes
named by the design document (`ShapeMismatchError`, `StaleStateError`,
`NumericalInstabilityError`) so that statements can compare what the code
raises against what the document names; the source itself never raises
those.
-/

/-- Metadata dictionaries (`Y_metadata`): opaque key/value mappings passed
through to the likelihood; `[]` plays the role of the empty dict `{}`. -/
abbrev YMeta := List (Nat × ℚ)

/-- Python-level failure outcomes.  `assertionError` and `attributeError`
are what the source can actually raise; the remaining constructors are the
error classes named by the design document, included so that statements can
distinguish them from the real outcomes. -/
inductive PyError where
  | assertionError
  | attributeError
  | shapeMismatchError
  | staleStateError
  | numericalInstabilityError
deriving DecidableEq, Repr

/-- The dynamic class of the likelihood collaborator, as far as
`GP.__init__` inspects it: `isinstance(likelihood, likelihoods.Gaussian)`,
`isinstance(likelihood, likelihoods.MixedNoise)`, or anything else. -/
inductive LikKind where
  | gaussian
  | mixedNoise
  | other
deriving DecidableEq, Repr

/-- The inference-method object held by the model: the two defaults the
constructor can pick, or a caller-supplied one (represented by a tag). -/
inductive InferenceMethod where
  | exactGaussian
  | ep
  | custom (tag : Nat)
deriving DecidableEq, Repr

/-- A numpy-like array argument: the constructor only inspects `ndim` and
the shape/contents, so a 1-D or a 2-D (list of rows) array suffices. -/
inductive NpArray where
  | oneD (v : List ℚ)
  | twoD (rows : List (List ℚ))
deriving DecidableEq, Repr

/-- Construction-time view of a `GP` object: the fields `GP.__init__`
assigns.  `log_marginal` models the attribute `_log_marginal_likelihood`,
which `__init__` never assigns (it is first assigned by
`parameters_changed`), hence `Option` with `none` meaning "unset".
`kern_input_dim` records the kernel collaborator's declared `input_dim`. -/
structure GPModel where
  name : String
  X : List (List ℚ)
  Y : List (List ℚ)
  num_data : Nat
  input_dim : Nat
  output_dim : Nat
  kern_input_dim : Nat
  likelihood_kind : LikKind
  inference_method : InferenceMethod
  Y_metadata : YMeta
  log_marginal : Option ℚ
deriving DecidableEq, Repr

/-- `GP.__init__(X, Y, kernel, likelihood, inference_method=None, name='gp',
Y_metadata=None)`.  Follows the source order:
`assert X.ndim == 2`; take `num_data, input_dim = X.shape`;
`assert Y.ndim == 2`; `assert Y.shape[0] == num_data`;
`Y_metadata = Y_metadata or {}`;
the commented-out line `#assert self.input_dim == kernel.input_dim` is
dead, so the kernel's declared input dimension is never compared to
`input_dim`; if `inference_method is None`, pick `ExactGaussianInference`
when the likelihood is a `Gaussian` or a `MixedNoise` and `EP` otherwise. -/
def GP_init (X Y : NpArray) (kernInputDim : Nat) (likKind : LikKind)
    (inferenceMethod : Option InferenceMethod) (name : String)
    (yMetadata : Option YMeta) : Except PyError GPModel :=
  match X with
  | NpArray.oneD _ => Except.error PyError.assertionError
  | NpArray.twoD xrows =>
    let num_data := xrows.length
    let input_dim := (xrows.headD []).length
    match Y with
    | NpArray.oneD _ => Except.error PyError.assertionError
    | NpArray.twoD yrows =>
      if yrows.length = num_data then
        let output_dim := (yrows.headD []).length
        let meta :=
          match yMetadata with
          | none => []
          | some d => d
        let im :=
          match inferenceMethod with
          | some im => im
          | none =>
            if likKind = LikKind.gaussian ∨ likKind = LikKind.mixedNoise then
              InferenceMethod.exactGaussian
            else
              InferenceMethod.ep
        Except.ok
          { name := name
            X := xrows
            Y := yrows
            num_data := num_data
            input_dim := input_dim
            output_dim := output_dim
            kern_input_dim := kernInputDim
            likelihood_kind := likKind
            inference_method := im
            Y_metadata := meta
            log_marginal := none }
      else
        Except.error PyError.assertionError

/-- `GP.log_likelihood(self): return self._log_marginal_likelihood`.
Reading the attribute before it has ever been assigned raises
`AttributeError` in Python, modelled by the `none` branch. -/
def log_likelihood (g : GPModel) : Except PyError ℚ :=
  match g.log_marginal with
  | none => Except.error PyError.attributeError
  | some v => Except.ok v

/-! ## Prediction-time layer: sized matrices -/

/-- The posterior object produced by the inference method, as read by
`GP._raw_predict`: `woodbury_vector` (N×P) and `woodbury_inv` (N×N).
(The source's posterior also carries `woodbury_chol`, which the active
code of `_raw_predict` never reads — it occurs only in commented lines.) -/
structure Posterior (n p : Nat) where
  woodbury_vector : Matrix (Fin n) (Fin p) ℚ
  woodbury_inv : Matrix (Fin n) (Fin n) ℚ

/-- The kernel collaborator's interface as used by `gp.py`:
`K A B` is `kern.K(A, B)` (the one-argument call `kern.K(A)` is `K A A`)
and `Kdiag A` is `kern.Kdiag(A)`.  `input_dim` is the kernel's declared
input dimension (never checked by the constructor). -/
structure Kern (d : Nat) where
  input_dim : Nat
  K : (a : Nat) → (b : Nat) →
    Matrix (Fin a) (Fin d) ℚ → Matrix (Fin b) (Fin d) ℚ → Matrix (Fin a) (Fin b) ℚ
  Kdiag : (a : Nat) → Matrix (Fin a) (Fin d) ℚ → Fin a → ℚ

/-- `GP._raw_predict(_Xnew, full_cov=True)`:
`Kx = kern.K(_Xnew, X).T`; `WiKx = woodbury_inv · Kx`;
`mu = Kx.T · woodbury_vector`; `Kxx = kern.K(_Xnew)` (computed and then
never used by the active code); `var = Kx.T · WiKx`.  Returns `(mu, var)`. -/
def raw_predict_full {n d p m : Nat} (kern : Kern d)
    (X : Matrix (Fin n) (Fin d) ℚ) (post : Posterior n p)
    (Xnew : Matrix (Fin m) (Fin d) ℚ) :
    Matrix (Fin m) (Fin p) ℚ × Matrix (Fin m) (Fin m) ℚ :=
  let Kx := (kern.K m n Xnew X).transpose
  let WiKx := post.woodbury_inv * Kx
  let mu := Kx.transpose * post.woodbury_vector
  let _Kxx := kern.K m m Xnew Xnew
  let var := Kx.transpose * WiKx
  (mu, var)

/-- `GP._raw_predict(_Xnew, full_cov=False)`:
`Kx = kern.K(_Xnew, X).T`; `WiKx = woodbury_inv · Kx`;
`mu = Kx.T · woodbury_vector`; `Kxx = kern.Kdiag(_Xnew)`;
`var = Kxx - np.sum(WiKx*Kx, 0)` (elementwise product, summed down the
rows, i.e. over the N axis), then `var.reshape(-1, 1)` to an M×1 column.
No clamping is applied to `var`.  Returns `(mu, var)`. -/
def raw_predict_diag {n d p m : Nat} (kern : Kern d)
    (X : Matrix (Fin n) (Fin d) ℚ) (post : Posterior n p)
    (Xnew : Matrix (Fin m) (Fin d) ℚ) :
    Matrix (Fin m) (Fin p) ℚ × Matrix (Fin m) (Fin 1) ℚ :=
  let Kx := (kern.K m n Xnew X).transpose
  let WiKx := post.woodbury_inv * Kx
  let mu := Kx.transpose * post.woodbury_vector
  let Kxx := kern.Kdiag m Xnew
  let var := Matrix.of fun i (_ : Fin 1) => Kxx i - ∑ j, WiKx j i * Kx j i
  (mu, var)

/-- The full-covariance predictive variance as the design document states
it: `var(X*) = K(X*,X*) − K(X*,X)·woodbury_inv·K(X,X*)`.  Written from the
document's words, to be compared against `raw_predict_full`. -/
def spec_full_cov_var {n d p m : Nat} (kern : Kern d)
    (X : Matrix (Fin n) (Fin d) ℚ) (post : Posterior n p)
    (Xnew : Matrix (Fin m) (Fin d) ℚ) : Matrix (Fin m) (Fin m) ℚ :=
  kern.K m m Xnew Xnew -
    kern.K m n Xnew X * post.woodbury_inv * (kern.K m n Xnew X).transpose

/-- The gradient bundle returned by an inference call, as read by
`parameters_changed`: `grad_dict['dL_dK']` and `grad_dict['dL_dthetaL']`. -/
structure GradDict (n : Nat) where
  dL_dK : Matrix (Fin n) (Fin n) ℚ
  dL_dthetaL : List ℚ

/-- The likelihood collaborator's interface as used by `gp.py`.  Each
routine takes the metadata argument last, as an `Option YMeta` (`none`
models Python's `None`).  `predictive_values` is split by the shape of its
variance argument into a diagonal and a full-covariance version, mirroring
the two shapes `_raw_predict` can feed it. -/
structure LikFuns (p : Nat) where
  kind : LikKind
  predictive_values_diag : (m : Nat) →
    Matrix (Fin m) (Fin p) ℚ → Matrix (Fin m) (Fin 1) ℚ → Option YMeta →
    Matrix (Fin m) (Fin p) ℚ × Matrix (Fin m) (Fin 1) ℚ
  predictive_values_full : (m : Nat) →
    Matrix (Fin m) (Fin p) ℚ → Matrix (Fin m) (Fin m) ℚ → Option YMeta →
    Matrix (Fin m) (Fin p) ℚ × Matrix (Fin m) (Fin m) ℚ
  predictive_quantiles : (m : Nat) →
    Matrix (Fin m) (Fin p) ℚ → Matrix (Fin m) (Fin 1) ℚ → List ℚ → Option YMeta →
    List (Matrix (Fin m) (Fin p) ℚ)
  samples : (m : Nat) → (size : Nat) →
    Matrix (Fin m) (Fin size) ℚ → Option YMeta → Matrix (Fin m) (Fin size) ℚ

/-- Prediction-time view of a `GP` object: data, collaborators, and the
attributes `parameters_changed` assigns (`posterior`,
`_log_marginal_likelihood`, `grad_dict`), each `none` until first
assigned.  `inference` is `inference_method.inference` with the argument
order of the source call site. -/
structure GPState (n d p : Nat) where
  X : Matrix (Fin n) (Fin d) ℚ
  Y : Matrix (Fin n) (Fin p) ℚ
  Y_metadata : YMeta
  kern : Kern d
  likelihood : LikFuns p
  inference : Kern d → Matrix (Fin n) (Fin d) ℚ → LikFuns p →
    Matrix (Fin n) (Fin p) ℚ → YMeta → Posterior n p × ℚ × GradDict n
  posterior : Option (Posterior n p)
  log_marginal : Option ℚ
  grad_dict : Option (GradDict n)

/-- `GP.parameters_changed`: one inference call on the current
`kern, X, likelihood, Y, Y_metadata`; the returned posterior, log marginal
likelihood and gradient bundle are stored.  (The subsequent
`likelihood.update_gradients` / `kern.update_gradients_full` calls mutate
only the collaborators' own gradient stores, which are outside the model
state.) -/
def parameters_changed {n d p : Nat} (s : GPState n d p) : GPState n d p :=
  let r := s.inference s.kern s.X s.likelihood s.Y s.Y_metadata
  { s with posterior := some r.1, log_marginal := some r.2.1,
           grad_dict := some r.2.2 }

/-- `GP.predict(Xnew, full_cov=False, Y_metadata=None)`, `full_cov=False`
branch: `mu, var = _raw_predict(Xnew, full_cov)` then
`likelihood.predictive_values(mu, var, full_cov, Y_metadata)`.  Reading
`self.posterior` before it was ever assigned raises `AttributeError`.
The method assigns no attribute, so the state comes back unchanged. -/
def predict_diag {n d p m : Nat} (s : GPState n d p)
    (Xnew : Matrix (Fin m) (Fin d) ℚ) (yMetadata : Option YMeta) :
    Except PyError
      ((Matrix (Fin m) (Fin p) ℚ × Matrix (Fin m) (Fin 1) ℚ) × GPState n d p) :=
  match s.posterior with
  | none => Except.error PyError.attributeError
  | some post =>
    let mv := raw_predict_diag s.kern s.X post Xnew
    Except.ok (s.likelihood.predictive_values_diag m mv.1 mv.2 yMetadata, s)

/-- `GP.predict(Xnew, full_cov=True, Y_metadata=None)` branch. -/
def predict_full {n d p m : Nat} (s : GPState n d p)
    (Xnew : Matrix (Fin m) (Fin d) ℚ) (yMetadata : Option YMeta) :
    Except PyError
      ((Matrix (Fin m) (Fin p) ℚ × Matrix (Fin m) (Fin m) ℚ) × GPState n d p) :=
  match s.posterior with
  | none => Except.error PyError.attributeError
  | some post =>
    let mv := raw_predict_full s.kern s.X post Xnew
    Except.ok (s.likelihood.predictive_values_full m mv.1 mv.2 yMetadata, s)

/-- `GP.predict_quantiles(X, quantiles=(2.5, 97.5), Y_metadata=None)`:
`m, v = _raw_predict(X, full_cov=False)` then
`likelihood.predictive_quantiles(m, v, quantiles, Y_metadata)`. -/
def predict_quantiles {n d p m : Nat} (s : GPState n d p)
    (X : Matrix (Fin m) (Fin d) ℚ) (quantiles : List ℚ)
    (yMetadata : Option YMeta) :
    Except PyError (List (Matrix (Fin m) (Fin p) ℚ)) :=
  match s.posterior with
  | none => Except.error PyError.attributeError
  | some post =>
    let mv := raw_predict_diag s.kern s.X post X
    Except.ok (s.likelihood.predictive_quantiles m mv.1 mv.2 quantiles yMetadata)

/-- `GP.posterior_samples_f(X, size=10, full_cov=True)` for a single
output column: `m, v = _raw_predict(X, full_cov)`; draw `size` samples
from the multivariate normal with mean `m.flatten()` and covariance `v`
(`full_cov=True`) or `np.diag(v.flatten())` (`full_cov=False`).  The draw
itself is the external `np.random.multivariate_normal`, modelled by the
explicit `sampler` argument. -/
def posterior_samples_f {n d m : Nat} (s : GPState n d 1)
    (sampler : (a : Nat) → (size : Nat) →
      (Fin a → ℚ) → Matrix (Fin a) (Fin a) ℚ → Matrix (Fin a) (Fin size) ℚ)
    (X : Matrix (Fin m) (Fin d) ℚ) (size : Nat) (full_cov : Bool) :
    Except PyError (Matrix (Fin m) (Fin size) ℚ) :=
  match s.posterior with
  | none => Except.error PyError.attributeError
  | some post =>
    if full_cov then
      let mv := raw_predict_full s.kern s.X post X
      Except.ok (sampler m size (fun i => mv.1 i 0) mv.2)
    else
      let mv := raw_predict_diag s.kern s.X post X
      Except.ok (sampler m size (fun i => mv.1 i 0)
        (Matrix.diagonal fun i => mv.2 i 0))

/-- `GP.posterior_samples(X, size=10, full_cov=False, Y_metadata=None)`:
`Ysim = posterior_samples_f(X, size, full_cov)` then
`likelihood.samples(Ysim, Y_metadata)`. -/
def posterior_samples {n d m : Nat} (s : GPState n d 1)
    (sampler : (a : Nat) → (size : Nat) →
      (Fin a → ℚ) → Matrix (Fin a) (Fin a) ℚ → Matrix (Fin a) (Fin size) ℚ)
    (X : Matrix (Fin m) (Fin d) ℚ) (size : Nat) (full_cov : Bool)
    (yMetadata : Option YMeta) :
    Except PyError (Matrix (Fin m) (Fin size) ℚ) :=
  (posterior_samples_f s sampler X size full_cov).map
    (fun ysim => s.likelihood.samples m size ysim yMetadata)

/-! ## Concrete instances used by counterexamples and witnesses -/

/-- A constant kernel on 1-D inputs: `K(A,B)` is the all-ones matrix and
`Kdiag(A)` is the all-ones vector (the values a unit-variance stationary
kernel takes at zero distance). -/
def kOne : Kern 1 :=
  { input_dim := 1
    K := fun _ _ _ _ => Matrix.of fun _ _ => 1
    Kdiag := fun _ _ _ => 1 }

/-- One training input, `X = [[0]]`. -/
def Xtr : Matrix (Fin 1) (Fin 1) ℚ := Matrix.of fun _ _ => 0

/-- One new input, `X* = [[1]]`. -/
def Xnew1 : Matrix (Fin 1) (Fin 1) ℚ := Matrix.of fun _ _ => 1

/-- A posterior with `woodbury_vector = [[1]]`, `woodbury_inv = [[1/4]]`. -/
def postQuarter : Posterior 1 1 :=
  { woodbury_vector := Matrix.of fun _ _ => 1
    woodbury_inv := Matrix.of fun _ _ => 1/4 }

/-- A posterior with `woodbury_vector = [[1]]`, `woodbury_inv = [[2]]`:
then `Kdiag − Σ(WiKx⊙Kx) = 1 − 2 = −1`, exercising the negative-variance
cancellation. -/
def postTwo : Posterior 1 1 :=
  { woodbury_vector := Matrix.of fun _ _ => 1
    woodbury_inv := Matrix.of fun _ _ => 2 }

/-! ## Claims about `_raw_predict` -/

/-- C1: at a concrete one-point model state the `full_cov=True` variance
the code returns is `K(X*,X)·woodbury_inv·K(X,X*) = 1/4`, while the
specified value `K(X*,X*) − K(X*,X)·woodbury_inv·K(X,X*)` is `3/4`: line
91 of `gp.py` returns `np.dot(Kx.T, WiKx)` without subtracting it from
`Kxx` (which line 89 computes and then never uses). -/
theorem C1_full_cov_variance_bug_eval :
    (raw_predict_full kOne Xtr postQuarter Xnew1).2 0 0 = 1/4 ∧
    spec_full_cov_var kOne Xtr postQuarter Xnew1 0 0 = 3/4 ∧
    (raw_predict_full kOne Xtr postQuarter Xnew1).2 0 0 ≠
      spec_full_cov_var kOne Xtr postQuarter Xnew1 0 0 := by
  have h1 : (raw_predict_full kOne Xtr postQuarter Xnew1).2 0 0 = 1/4 := by
    simp [raw_predict_full, kOne, Xtr, postQuarter, Xnew1, Matrix.mul_apply,
      Matrix.transpose_apply, Matrix.of_apply, Fin.sum_univ_one]
  have h2 : spec_full_cov_var kOne Xtr postQuarter Xnew1 0 0 = 3/4 := by
    simp [spec_full_cov_var, kOne, Xtr, postQuarter, Xnew1, Matrix.mul_apply,
      Matrix.transpose_apply, Matrix.of_apply, Fin.sum_univ_one]
    norm_num
  refine ⟨h1, h2, ?_⟩
  rw [h1, h2]
  norm_num

/-- C2: at the same concrete state, the diagonal entry of the
`full_cov=True` variance is `1/4` but the `full_cov=False` variance at the
same point is `3/4`: the two paths disagree (by `1/2`, far beyond floating
tolerance), because only the diagonal path subtracts from `Kdiag`. -/
theorem C2_diag_of_full_disagrees_eval :
    (raw_predict_full kOne Xtr postQuarter Xnew1).2 0 0 = 1/4 ∧
    (raw_predict_diag kOne Xtr postQuarter Xnew1).2 0 0 = 3/4 ∧
    (raw_predict_full kOne Xtr postQuarter Xnew1).2 0 0 ≠
      (raw_predict_diag kOne Xtr postQuarter Xnew1).2 0 0 := by
  have h1 : (raw_predict_full kOne Xtr postQuarter Xnew1).2 0 0 = 1/4 := by
    simp [raw_predict_full, kOne, Xtr, postQuarter, Xnew1, Matrix.mul_apply,
      Matrix.transpose_apply, Matrix.of_apply, Fin.sum_univ_one]
  have h2 : (raw_predict_diag kOne Xtr postQuarter Xnew1).2 0 0 = 3/4 := by
    simp [raw_predict_diag, kOne, Xtr, postQuarter, Xnew1, Matrix.mul_apply,
      Matrix.transpose_apply, Matrix.of_apply, Fin.sum_univ_one]
    norm_num
  refine ⟨h1, h2, ?_⟩
  rw [h1, h2]
  norm_num

/-- C3 (counterexample): the diagonal-only path applies no clamping: at a
concrete state where the cancellation `Kdiag − Σ(WiKx⊙Kx)` is `1 − 2`, the
returned variance entry is `−1`, which is negative and far below any small
tolerance `−ε` (e.g. below `−10⁻⁶`). -/
theorem C3_no_clamp_counterexample :
    (raw_predict_diag kOne Xtr postTwo Xnew1).2 0 0 = -1 ∧
    ¬ (0 ≤ (raw_predict_diag kOne Xtr postTwo Xnew1).2 0 0) ∧
    (raw_predict_diag kOne Xtr postTwo Xnew1).2 0 0 < -(1/1000000) := by
  have h1 : (raw_predict_diag kOne Xtr postTwo Xnew1).2 0 0 = -1 := by
    simp [raw_predict_diag, kOne, Xtr, postTwo, Xnew1, Matrix.mul_apply,
      Matrix.transpose_apply, Matrix.of_apply, Fin.sum_univ_one]
    norm_num
  refine ⟨h1, ?_, ?_⟩ <;> rw [h1] <;> norm_num

/-- C3 (amended): the `full_cov=False` path returns the algebraic value
`Kdiag(X*)ᵢ − Σⱼ (woodbury_inv·Kx)ⱼᵢ·Kxⱼᵢ` with no clamping: whenever that
cancellation is negative, the returned variance entry equals it and is
itself negative. -/
theorem C3_diag_variance_unclamped {n d p m : Nat} (kern : Kern d)
    (X : Matrix (Fin n) (Fin d) ℚ) (post : Posterior n p)
    (Xnew : Matrix (Fin m) (Fin d) ℚ) (i : Fin m)
    (h : kern.Kdiag m Xnew i -
      ∑ j, (post.woodbury_inv * (kern.K m n Xnew X).transpose) j i *
        (kern.K m n Xnew X).transpose j i < 0) :
    (raw_predict_diag kern X post Xnew).2 i 0 =
      kern.Kdiag m Xnew i -
        ∑ j, (post.woodbury_inv * (kern.K m n Xnew X).transpose) j i *
          (kern.K m n Xnew X).transpose j i ∧
    (raw_predict_diag kern X post Xnew).2 i 0 < 0 := by
  refine ⟨rfl, ?_⟩
  simpa [raw_predict_diag] using h

/-- Witness for `C3_diag_variance_unclamped` at the concrete state of
`C3_no_clamp_counterexample`. -/
theorem C3_diag_variance_unclamped_witness :
    (raw_predict_diag kOne Xtr postTwo Xnew1).2 0 0 =
      kOne.Kdiag 1 Xnew1 0 -
        ∑ j, (postTwo.woodbury_inv * (kOne.K 1 1 Xnew1 Xtr).transpose) j 0 *
          (kOne.K 1 1 Xnew1 Xtr).transpose j 0 ∧
    (raw_predict_diag kOne Xtr postTwo Xnew1).2 0 0 < 0 :=
  C3_diag_variance_unclamped kOne Xtr postTwo Xnew1 0 (by
    simp [kOne, Xtr, postTwo, Xnew1, Matrix.mul_apply, Matrix.transpose_apply,
      Matrix.of_apply, Fin.sum_univ_one])

/-- C7: on the `full_cov=False` path, the returned mean is
`Kxᵀ·woodbury_vector` (entry `(i,c)` is `Σⱼ Kxⱼᵢ·woodbury_vectorⱼ𝒸`) and
the returned variance is the M×1 column with entry `i` equal to
`kern.Kdiag(X*)ᵢ − Σⱼ (WiKx ⊙ Kx)ⱼᵢ`, where `Kx = kern.K(X*, X)ᵀ` and
`WiKx = woodbury_inv·Kx`. -/
theorem C7_raw_predict_diag_formulas {n d p m : Nat} (kern : Kern d)
    (X : Matrix (Fin n) (Fin d) ℚ) (post : Posterior n p)
    (Xnew : Matrix (Fin m) (Fin d) ℚ) (i : Fin m) (c : Fin p) (o : Fin 1) :
    (raw_predict_diag kern X post Xnew).1 i c =
      ∑ j, (kern.K m n Xnew X).transpose j i * post.woodbury_vector j c ∧
    (raw_predict_diag kern X post Xnew).2 i o =
      kern.Kdiag m Xnew i -
        ∑ j, (post.woodbury_inv * (kern.K m n Xnew X).transpose) j i *
          (kern.K m n Xnew X).transpose j i := by
  constructor
  · simp [raw_predict_diag, Matrix.mul_apply, Matrix.transpose_apply]
  · rfl

/-! ## Claims about construction and `log_likelihood` -/

/-- The scenario data of the design document (`X = [[0],[1],[2]]`,
`Y = [[0],[1],[0]]`, Gaussian likelihood, no inference method supplied),
constructed and never recomputed. -/
def freshGP : Except PyError GPModel :=
  GP_init (NpArray.twoD [[0], [1], [2]]) (NpArray.twoD [[0], [1], [0]]) 1
    LikKind.gaussian none "gp" none

/-- Querying `log_likelihood()` on `freshGP` (errors propagate). -/
def freshGP_log_likelihood : Except PyError ℚ :=
  match freshGP with
  | Except.ok g => log_likelihood g
  | Except.error e => Except.error e

/-- C4 (counterexample): on a freshly constructed, never-recomputed model,
`log_likelihood()` fails — but with `AttributeError` (the attribute
`_log_marginal_likelihood` was never assigned), not with the
`StaleStateError` the design document names; no such error class exists in
the source. -/
theorem C4_fresh_query_error_is_attributeError :
    freshGP_log_likelihood = Except.error PyError.attributeError ∧
    freshGP_log_likelihood ≠ Except.error PyError.staleStateError := by
  refine ⟨rfl, ?_⟩
  intro h
  rw [show freshGP_log_likelihood = Except.error PyError.attributeError from rfl] at h
  exact absurd (Except.error.inj h) (by decide)

/-- C4 (amended): for every freshly constructed model — any arguments on
which `GP_init` succeeds — `log_likelihood()` fails with `AttributeError`
rather than returning a value, because `parameters_changed` is the only
assignment site of `_log_marginal_likelihood`. -/
theorem C4_fresh_log_likelihood_raises (X Y : NpArray) (kid : Nat)
    (lk : LikKind) (im : Option InferenceMethod) (nm : String)
    (meta : Option YMeta) (g : GPModel)
    (h : GP_init X Y kid lk im nm meta = Except.ok g) :
    log_likelihood g = Except.error PyError.attributeError := by
  cases X with
  | oneD v => simp [GP_init] at h
  | twoD xrows =>
    cases Y with
    | oneD v => simp [GP_init] at h
    | twoD yrows =>
      by_cases hc : yrows.length = xrows.length
      · simp [GP_init, hc] at h
        rw [← h]
        rfl
      · simp [GP_init, hc] at h

/-- Witness for `C4_fresh_log_likelihood_raises`: the model of `freshGP`. -/
theorem C4_fresh_log_likelihood_raises_witness :
    log_likelihood
      { name := "gp", X := [[0], [1], [2]], Y := [[0], [1], [0]],
        num_data := 3, input_dim := 1, output_dim := 1, kern_input_dim := 1,
        likelihood_kind := LikKind.gaussian,
        inference_method := InferenceMethod.exactGaussian,
        Y_metadata := [], log_marginal := none } =
      Except.error PyError.attributeError :=
  C4_fresh_log_likelihood_raises (NpArray.twoD [[0], [1], [2]])
    (NpArray.twoD [[0], [1], [0]]) 1 LikKind.gaussian none "gp" none _ rfl

/-- `X` with 5 rows. -/
def X5rows : NpArray := NpArray.twoD [[0], [1], [2], [3], [4]]

/-- `Y` with 4 rows. -/
def Y4rows : NpArray := NpArray.twoD [[0], [1], [2], [3]]

/-- C5 (counterexample): constructing with `X` of 5 rows and `Y` of 4 rows
fails eagerly and no model is produced — but with `AssertionError` (from
`assert Y.shape[0] == self.num_data`), not with the `ShapeMismatchError`
the design document names; no such error class exists in the source. -/
theorem C5_row_mismatch_error_is_assertionError :
    GP_init X5rows Y4rows 1 LikKind.gaussian none "gp" none =
      Except.error PyError.assertionError ∧
    GP_init X5rows Y4rows 1 LikKind.gaussian none "gp" none ≠
      Except.error PyError.shapeMismatchError := by
  refine ⟨rfl, ?_⟩
  intro h
  rw [show GP_init X5rows Y4rows 1 LikKind.gaussian none "gp" none =
    Except.error PyError.assertionError from rfl] at h
  exact absurd (Except.error.inj h) (by decide)

/-- C5 (amended): for every pair of 2-D arrays whose row counts differ,
construction fails eagerly with `AssertionError` (no model object is
produced). -/
theorem C5_row_mismatch_fails (xrows yrows : List (List ℚ)) (kid : Nat)
    (lk : LikKind) (im : Option InferenceMethod) (nm : String)
    (meta : Option YMeta) (h : yrows.length ≠ xrows.length) :
    GP_init (NpArray.twoD xrows) (NpArray.twoD yrows) kid lk im nm meta =
      Except.error PyError.assertionError := by
  simp [GP_init, h]

/-- Witness for `C5_row_mismatch_fails`: 5 rows against 4 rows. -/
theorem C5_row_mismatch_fails_witness :
    GP_init (NpArray.twoD [[0], [1], [2], [3], [4]])
      (NpArray.twoD [[0], [1], [2], [3]]) 1 LikKind.gaussian none "gp" none =
      Except.error PyError.assertionError :=
  C5_row_mismatch_fails [[0], [1], [2], [3], [4]] [[0], [1], [2], [3]] 1
    LikKind.gaussian none "gp" none (by decide)

/-- C6: whenever `inference_method` is not supplied and construction
succeeds, the selected method is `ExactGaussianInference` exactly when the
likelihood is a `Gaussian` or a `MixedNoise`, and `EP` in every other
case. -/
theorem C6_default_inference_selection (X Y : NpArray) (kid : Nat)
    (lk : LikKind) (nm : String) (meta : Option YMeta) (g : GPModel)
    (h : GP_init X Y kid lk none nm meta = Except.ok g) :
    (g.inference_method = InferenceMethod.exactGaussian ↔
      (lk = LikKind.gaussian ∨ lk = LikKind.mixedNoise)) ∧
    (g.inference_method = InferenceMethod.ep ↔
      ¬ (lk = LikKind.gaussian ∨ lk = LikKind.mixedNoise)) := by
  cases X with
  | oneD v => simp [GP_init] at h
  | twoD xrows =>
    cases Y with
    | oneD v => simp [GP_init] at h
    | twoD yrows =>
      by_cases hc : yrows.length = xrows.length
      · simp [GP_init, hc] at h
        rw [← h]
        cases lk <;> simp
      · simp [GP_init, hc] at h

/-- Witness for `C6_default_inference_selection`: a non-Gaussian
likelihood defaults to EP. -/
theorem C6_default_inference_selection_witness :
    (GPModel.inference_method
        { name := "gp", X := [[0], [1], [2]], Y := [[0], [1], [0]],
          num_data := 3, input_dim := 1, output_dim := 1, kern_input_dim := 1,
          likelihood_kind := LikKind.other,
          inference_method := InferenceMethod.ep,
          Y_metadata := [], log_marginal := none } =
        InferenceMethod.exactGaussian ↔
      (LikKind.other = LikKind.gaussian ∨ LikKind.other = LikKind.mixedNoise)) ∧
    (GPModel.inference_method
        { name := "gp", X := [[0], [1], [2]], Y := [[0], [1], [0]],
          num_data := 3, input_dim := 1, output_dim := 1, kern_input_dim := 1,
          likelihood_kind := LikKind.other,
          inference_method := InferenceMethod.ep,
          Y_metadata := [], log_marginal := none } =
        InferenceMethod.ep ↔
      ¬ (LikKind.other = LikKind.gaussian ∨ LikKind.other = LikKind.mixedNoise)) :=
  C6_default_inference_selection (NpArray.twoD [[0], [1], [2]])
    (NpArray.twoD [[0], [1], [0]]) 1 LikKind.other "gp" none _ rfl

/-- C10: whenever the 2-D shape invariant holds (`Y` has as many rows as
`X`), construction succeeds for every declared kernel input dimension —
the constructor never compares `kern_input_dim` with `input_dim` (that
check is commented out in the source), so a dimension-mismatched kernel is
accepted. -/
theorem C10_kernel_dim_never_checked (xrows yrows : List (List ℚ))
    (kid : Nat) (lk : LikKind) (im : Option InferenceMethod) (nm : String)
    (meta : Option YMeta) (h : yrows.length = xrows.length) :
    ∃ g, GP_init (NpArray.twoD xrows) (NpArray.twoD yrows) kid lk im nm meta =
        Except.ok g ∧
      g.kern_input_dim = kid ∧
      g.input_dim = (xrows.headD []).length := by
  simp [GP_init, h]

/-- Witness for `C10_kernel_dim_never_checked`: `X` has 2 columns but the
kernel declares `input_dim = 7`; construction still succeeds. -/
theorem C10_kernel_dim_never_checked_witness :
    ∃ g, GP_init (NpArray.twoD [[0, 0], [1, 1]]) (NpArray.twoD [[0], [1]]) 7
        LikKind.gaussian none "gp" none = Except.ok g ∧
      g.kern_input_dim = 7 ∧
      g.input_dim = (([[(0:ℚ), 0], [1, 1]]).headD []).length :=
  C10_kernel_dim_never_checked [[0, 0], [1, 1]] [[0], [1]] 7
    LikKind.gaussian none "gp" none (by decide)

/-! ## Claims about `predict` purity and metadata routing -/

/-- C8: whenever `predict` (the `full_cov=False` default) succeeds, the
model state it hands back is exactly the state it was given — the method
assigns no attribute — and a second call with identical arguments on that
state returns the identical result: prediction is a pure query. -/
theorem C8_predict_pure_idempotent {n d p m : Nat} (s : GPState n d p)
    (Xnew : Matrix (Fin m) (Fin d) ℚ) (meta : Option YMeta)
    (r : Matrix (Fin m) (Fin p) ℚ × Matrix (Fin m) (Fin 1) ℚ)
    (s1 : GPState n d p)
    (h : predict_diag s Xnew meta = Except.ok (r, s1)) :
    s1 = s ∧ predict_diag s1 Xnew meta = Except.ok (r, s1) := by
  cases hp : s.posterior with
  | none => simp [predict_diag, hp] at h
  | some post =>
    simp [predict_diag, hp] at h
    obtain ⟨hr, hs⟩ := h
    subst hs
    subst hr
    exact ⟨rfl, by simp [predict_diag, hp]⟩

/-- The identity-like likelihood collaborator used by concrete states:
`predictive_values` passes mean and variance through unchanged,
`predictive_quantiles` returns the mean once per requested level, and
`samples` passes the latent samples through. -/
def likId : LikFuns 1 :=
  { kind := LikKind.gaussian
    predictive_values_diag := fun _ mu var _ => (mu, var)
    predictive_values_full := fun _ mu var _ => (mu, var)
    predictive_quantiles := fun _ mu _ qs _ => qs.map fun _ => mu
    samples := fun _ _ ys _ => ys }

/-- A constant inference collaborator: always returns `postQuarter`, log
marginal likelihood `0` and a zero gradient bundle. -/
def infConst : Kern 1 → Matrix (Fin 1) (Fin 1) ℚ → LikFuns 1 →
    Matrix (Fin 1) (Fin 1) ℚ → YMeta → Posterior 1 1 × ℚ × GradDict 1 :=
  fun _ _ _ _ _ =>
    (postQuarter, 0, { dL_dK := Matrix.of fun _ _ => 0, dL_dthetaL := [] })

/-- A concrete fresh (already-inferred) model state. -/
def sOne : GPState 1 1 1 :=
  { X := Xtr
    Y := Matrix.of fun _ _ => 1
    Y_metadata := []
    kern := kOne
    likelihood := likId
    inference := infConst
    posterior := some postQuarter
    log_marginal := some 0
    grad_dict := none }

/-- The value `predict_diag sOne Xnew1 none` returns. -/
def sOne_predict_result : Matrix (Fin 1) (Fin 1) ℚ × Matrix (Fin 1) (Fin 1) ℚ :=
  likId.predictive_values_diag 1 (raw_predict_diag kOne Xtr postQuarter Xnew1).1
    (raw_predict_diag kOne Xtr postQuarter Xnew1).2 none

/-- Witness for `C8_predict_pure_idempotent` at the concrete state `sOne`. -/
theorem C8_predict_pure_idempotent_witness :
    sOne = sOne ∧
    predict_diag sOne Xnew1 none = Except.ok (sOne_predict_result, sOne) :=
  C8_predict_pure_idempotent sOne Xnew1 none sOne_predict_result sOne rfl

/-- C9: the metadata reaching the likelihood's predictive, quantile and
sampling routines is the caller-supplied `Y_metadata` argument of that
call (`none` when omitted); the `Y_metadata` stored on the model never
influences any of these results (replacing it changes nothing), and it is
consulted exactly by the inference call inside `parameters_changed`. -/
theorem C9_metadata_routing {n d p m : Nat}
    (X : Matrix (Fin n) (Fin d) ℚ) (Y : Matrix (Fin n) (Fin p) ℚ)
    (storedMeta altMeta : YMeta) (kern : Kern d) (lik : LikFuns p)
    (inf : Kern d → Matrix (Fin n) (Fin d) ℚ → LikFuns p →
      Matrix (Fin n) (Fin p) ℚ → YMeta → Posterior n p × ℚ × GradDict n)
    (post : Posterior n p) (lm : Option ℚ) (gd : Option (GradDict n))
    (Y1 : Matrix (Fin n) (Fin 1) ℚ) (lik1 : LikFuns 1)
    (inf1 : Kern d → Matrix (Fin n) (Fin d) ℚ → LikFuns 1 →
      Matrix (Fin n) (Fin 1) ℚ → YMeta → Posterior n 1 × ℚ × GradDict n)
    (post1 : Posterior n 1) (lm1 : Option ℚ) (gd1 : Option (GradDict n))
    (sampler : (a : Nat) → (size : Nat) →
      (Fin a → ℚ) → Matrix (Fin a) (Fin a) ℚ → Matrix (Fin a) (Fin size) ℚ)
    (Xnew : Matrix (Fin m) (Fin d) ℚ) (cm : Option YMeta) (qs : List ℚ)
    (sz : Nat) (fc : Bool) :
    predict_diag (GPState.mk X Y storedMeta kern lik inf (some post) lm gd)
        Xnew cm =
      Except.ok (lik.predictive_values_diag m
        (raw_predict_diag kern X post Xnew).1
        (raw_predict_diag kern X post Xnew).2 cm,
        GPState.mk X Y storedMeta kern lik inf (some post) lm gd) ∧
    predict_full (GPState.mk X Y storedMeta kern lik inf (some post) lm gd)
        Xnew cm =
      Except.ok (lik.predictive_values_full m
        (raw_predict_full kern X post Xnew).1
        (raw_predict_full kern X post Xnew).2 cm,
        GPState.mk X Y storedMeta kern lik inf (some post) lm gd) ∧
    predict_quantiles
        (GPState.mk X Y storedMeta kern lik inf (some post) lm gd) Xnew qs cm =
      Except.ok (lik.predictive_quantiles m
        (raw_predict_diag kern X post Xnew).1
        (raw_predict_diag kern X post Xnew).2 qs cm) ∧
    posterior_samples
        (GPState.mk X Y1 storedMeta kern lik1 inf1 (some post1) lm1 gd1)
        sampler Xnew sz fc cm =
      (posterior_samples_f
        (GPState.mk X Y1 storedMeta kern lik1 inf1 (some post1) lm1 gd1)
        sampler Xnew sz fc).map (fun ys => lik1.samples m sz ys cm) ∧
    (predict_diag (GPState.mk X Y altMeta kern lik inf (some post) lm gd)
        Xnew cm).map Prod.fst =
      (predict_diag (GPState.mk X Y storedMeta kern lik inf (some post) lm gd)
        Xnew cm).map Prod.fst ∧
    (predict_full (GPState.mk X Y altMeta kern lik inf (some post) lm gd)
        Xnew cm).map Prod.fst =
      (predict_full (GPState.mk X Y storedMeta kern lik inf (some post) lm gd)
        Xnew cm).map Prod.fst ∧
    predict_quantiles
        (GPState.mk X Y altMeta kern lik inf (some post) lm gd) Xnew qs cm =
      predict_quantiles
        (GPState.mk X Y storedMeta kern lik inf (some post) lm gd) Xnew qs cm ∧
    posterior_samples
        (GPState.mk X Y1 altMeta kern lik1 inf1 (some post1) lm1 gd1)
        sampler Xnew sz fc cm =
      posterior_samples
        (GPState.mk X Y1 storedMeta kern lik1 inf1 (some post1) lm1 gd1)
        sampler Xnew sz fc cm ∧
    parameters_changed (GPState.mk X Y storedMeta kern lik inf (some post) lm gd) =
      GPState.mk X Y storedMeta kern lik inf
        (some (inf kern X lik Y storedMeta).1)
        (some (inf kern X lik Y storedMeta).2.1)
        (some (inf kern X lik Y storedMeta).2.2) :=
  ⟨rfl, rfl, rfl, rfl, rfl, rfl, rfl, rfl, rfl⟩
